import Mathlib

/-!
Verification of the One_Mai_Admin administrative console against its
natural-language specification.

The development shallowly embeds the session/authorization model, the
remote fetch wrapper, the sidebar navigation filter, the generic data
table (pagination rendering, default actions) and the debounced-search
timer discipline.  Browser storage is modelled as the pair of values
stored under the single well-known key "admin_auth" in localStorage and
sessionStorage; JSON.parse is modelled by an executable JSON parser.
-/

/-- The single well-known storage key, from src/lib/api.ts line 1. -/
def AUTH_STORAGE_KEY : String := "admin_auth"

/-- Browser storage restricted to the key "admin_auth": the value held in
the durable scope (localStorage) and the session-lifetime scope
(sessionStorage); `none` models an absent key. -/
structure Store where
  localStorage : Option String
  sessionStorage : Option String
deriving DecidableEq, Repr

/-- JavaScript `a || b` on nullable strings: the empty string is falsy, so
`a || b` yields `b` whenever `a` is absent or empty. -/
def jsOr (a b : Option String) : Option String :=
  match a with
  | some s => if s = "" then b else some s
  | none => b

/-- JavaScript truthiness of a nullable string (`if (raw)`): true exactly
when a non-empty string is present. -/
def jsTruthy (a : Option String) : Bool :=
  match a with
  | some s => s ≠ ""
  | none => false

/-- JSON values as produced by `JSON.parse`.  Numbers keep their source
lexeme: no claim inspects numeric values, and JS numbers are IEEE floats
which we do not model. -/
inductive Json where
  | null
  | bool (b : Bool)
  | num (lexeme : String)
  | str (s : String)
  | arr (elems : List Json)
  | obj (fields : List (String × Json))
deriving Repr

/-- The double-quote character. -/
def quoteC : Char := Char.ofNat 34

/-- The backslash character. -/
def backslashC : Char := Char.ofNat 92

/-- The opening-brace character. -/
def openBraceC : Char := Char.ofNat 123

/-- The closing-brace character. -/
def closeBraceC : Char := Char.ofNat 125

/-- The opening-bracket character. -/
def openBracketC : Char := Char.ofNat 91

/-- The closing-bracket character. -/
def closeBracketC : Char := Char.ofNat 93

/-- JSON insignificant whitespace. -/
def isJsonWs (c : Char) : Bool :=
  c = ' ' || c = Char.ofNat 9 || c = Char.ofNat 10 || c = Char.ofNat 13

/-- Drop leading JSON whitespace. -/
def skipWs : List Char → List Char
  | [] => []
  | c :: cs => if isJsonWs c then skipWs cs else c :: cs

/-- Value of a hexadecimal digit. -/
def hexVal (c : Char) : Option Nat :=
  if 48 ≤ c.toNat ∧ c.toNat ≤ 57 then some (c.toNat - 48)
  else if 97 ≤ c.toNat ∧ c.toNat ≤ 102 then some (c.toNat - 87)
  else if 65 ≤ c.toNat ∧ c.toNat ≤ 70 then some (c.toNat - 55)
  else none

/-- Parse the body of a JSON string literal (the opening quote already
consumed), handling the escape sequences accepted by `JSON.parse`.
Fuel-driven so that the kernel can evaluate it. -/
def parseStringBody : Nat → List Char → String → Option (String × List Char)
  | 0, _, _ => none
  | _, [], _ => none
  | Nat.succ fuel, c :: cs, acc =>
    if c = quoteC then some (acc, cs)
    else if c = backslashC then
      match cs with
      | [] => none
      | e :: cs2 =>
        if e = quoteC then parseStringBody fuel cs2 (acc.push quoteC)
        else if e = backslashC then parseStringBody fuel cs2 (acc.push backslashC)
        else if e = '/' then parseStringBody fuel cs2 (acc.push '/')
        else if e = 'b' then parseStringBody fuel cs2 (acc.push (Char.ofNat 8))
        else if e = 'f' then parseStringBody fuel cs2 (acc.push (Char.ofNat 12))
        else if e = 'n' then parseStringBody fuel cs2 (acc.push (Char.ofNat 10))
        else if e = 'r' then parseStringBody fuel cs2 (acc.push (Char.ofNat 13))
        else if e = 't' then parseStringBody fuel cs2 (acc.push (Char.ofNat 9))
        else if e = 'u' then
          match cs2 with
          | h1 :: h2 :: h3 :: h4 :: cs3 =>
            match hexVal h1, hexVal h2, hexVal h3, hexVal h4 with
            | some a, some b, some c2, some d =>
              parseStringBody fuel cs3 (acc.push (Char.ofNat (((a * 16 + b) * 16 + c2) * 16 + d)))
            | _, _, _, _ => none
          | _ => none
        else none
    else if c.toNat < 32 then none
    else parseStringBody fuel cs (acc.push c)

/-- Split a leading run of decimal digits off a character list. -/
def takeDigits : List Char → List Char × List Char
  | [] => ([], [])
  | c :: cs =>
    if c.isDigit then
      match takeDigits cs with
      | (d, r) => (c :: d, r)
    else ([], c :: cs)

/-- Optional fraction part of a JSON number. -/
def parseFracPart (cs : List Char) : Option (String × List Char) :=
  match cs with
  | '.' :: r =>
    match takeDigits r with
    | ([], _) => none
    | (ds, r2) => some ("." ++ String.mk ds, r2)
  | _ => some ("", cs)

/-- Optional exponent part of a JSON number. -/
def parseExpPart (cs : List Char) : Option (String × List Char) :=
  match cs with
  | [] => some ("", [])
  | c :: r =>
    if c = 'e' ∨ c = 'E' then
      match r with
      | s :: r2 =>
        if s = '+' ∨ s = '-' then
          match takeDigits r2 with
          | ([], _) => none
          | (ds, r3) => some (String.mk [c, s] ++ String.mk ds, r3)
        else
          match takeDigits r with
          | ([], _) => none
          | (ds, r3) => some (String.mk [c] ++ String.mk ds, r3)
      | [] => none
    else some ("", cs)

/-- Parse a JSON number starting at the first character of its lexeme,
enforcing the JSON grammar (no leading zeros, digits required after the
point and the exponent). -/
def parseNumber (cs : List Char) : Option (String × List Char) :=
  let sgn : String × List Char :=
    match cs with
    | c :: r => if c = '-' then ("-", r) else ("", cs)
    | [] => ("", [])
  match sgn.2 with
  | [] => none
  | c :: r =>
    if c = '0' then
      match parseFracPart r with
      | none => none
      | some (f, r1) =>
        match parseExpPart r1 with
        | none => none
        | some (e, r2) => some (sgn.1 ++ "0" ++ f ++ e, r2)
    else if c.isDigit then
      match takeDigits r with
      | (ds, r0) =>
        match parseFracPart r0 with
        | none => none
        | some (f, r1) =>
          match parseExpPart r1 with
          | none => none
          | some (e, r2) => some (sgn.1 ++ String.mk (c :: ds) ++ f ++ e, r2)
    else none

/-- Work items of the JSON value parser: a value to parse, or the rest of
an array or object after the opening delimiter. -/
inductive JTask where
  | value (cs : List Char)
  | arrItems (acc : List Json) (cs : List Char)
  | objItems (acc : List (String × Json)) (cs : List Char)

/-- One fuel-indexed step machine covering JSON values, array items and
object members; returns the parsed value and the unconsumed rest. -/
def jstep : Nat → JTask → Option (Json × List Char)
  | 0, _ => none
  | Nat.succ fuel, JTask.value cs =>
    match skipWs cs with
    | [] => none
    | c :: rest =>
      if c = quoteC then
        match parseStringBody (rest.length + 1) rest "" with
        | some (s, r) => some (Json.str s, r)
        | none => none
      else if c = openBracketC then jstep fuel (JTask.arrItems [] rest)
      else if c = openBraceC then jstep fuel (JTask.objItems [] rest)
      else if c = 'n' then
        match rest with
        | 'u' :: 'l' :: 'l' :: r => some (Json.null, r)
        | _ => none
      else if c = 't' then
        match rest with
        | 'r' :: 'u' :: 'e' :: r => some (Json.bool true, r)
        | _ => none
      else if c = 'f' then
        match rest with
        | 'a' :: 'l' :: 's' :: 'e' :: r => some (Json.bool false, r)
        | _ => none
      else if c = '-' ∨ c.isDigit then
        match parseNumber (c :: rest) with
        | some (s, r) => some (Json.num s, r)
        | none => none
      else none
  | Nat.succ fuel, JTask.arrItems acc cs =>
    match skipWs cs with
    | [] => none
    | c :: rest =>
      if c = closeBracketC then
        if acc.isEmpty then some (Json.arr [], rest) else none
      else
        match jstep fuel (JTask.value (c :: rest)) with
        | none => none
        | some (v, r1) =>
          match skipWs r1 with
          | [] => none
          | d :: r2 =>
            if d = ',' then jstep fuel (JTask.arrItems (acc ++ [v]) r2)
            else if d = closeBracketC then some (Json.arr (acc ++ [v]), r2)
            else none
  | Nat.succ fuel, JTask.objItems acc cs =>
    match skipWs cs with
    | [] => none
    | c :: rest =>
      if c = closeBraceC then
        if acc.isEmpty then some (Json.obj [], rest) else none
      else if c = quoteC then
        match parseStringBody (rest.length + 1) rest "" with
        | none => none
        | some (k, r1) =>
          match skipWs r1 with
          | ':' :: r2 =>
            match jstep fuel (JTask.value r2) with
            | none => none
            | some (v, r3) =>
              match skipWs r3 with
              | [] => none
              | d :: r4 =>
                if d = ',' then jstep fuel (JTask.objItems (acc ++ [(k, v)]) r4)
                else if d = closeBraceC then some (Json.obj (acc ++ [(k, v)]), r4)
                else none
          | _ => none
      else none

/-- Model of `JSON.parse`: parse one JSON value and require only trailing
whitespace after it; any failure yields `none` (the embedded image of the
thrown `SyntaxError`, which every caller catches). -/
def Json.parse (s : String) : Option Json :=
  match jstep (2 * s.length + 4) (JTask.value s.data) with
  | some (j, rest) => if (skipWs rest).isEmpty then some j else none
  | none => none

/-- Property access `obj?.name` on a parsed JSON value: defined only on
objects, last duplicate key wins as in `JSON.parse`. -/
def Json.getField : Json → String → Option Json
  | Json.obj fields, name =>
    (fields.reverse.find? (fun p => p.1 == name)).map (fun p => p.2)
  | _, _ => none

/-- Project a field and keep it only when it is a JSON string.  The TS
sources cast the field (`parsed?.token as string | null`) without
conversion; a non-string value compares unequal to every string literal
downstream, so it is observationally `none` for every gate in the app. -/
def jsStringField (j : Json) (name : String) : Option String :=
  match j.getField name with
  | some (Json.str v) => some v
  | _ => none

/-- The raw stored value read by every session-read site:
`localStorage.getItem(AUTH_STORAGE_KEY) || sessionStorage.getItem(AUTH_STORAGE_KEY)`. -/
def rawOf (s : Store) : Option String :=
  jsOr s.localStorage s.sessionStorage

namespace Api

/-- `getAuthToken` from src/lib/api.ts lines 3-14: read the raw value with
durable-first precedence, return `null` when it is absent or empty, parse
it as JSON (returning `null` on a parse error) and project the `token`
field.  A pure function of storage: no network call. -/
def getAuthToken (s : Store) : Option String :=
  match jsOr s.localStorage s.sessionStorage with
  | none => none
  | some raw =>
    if raw = "" then none
    else
      match Json.parse raw with
      | none => none
      | some parsed => jsStringField parsed "token"

end Api

namespace ProfilePage

/-- `parseSession` from src/pages/Profile.tsx lines 21-31: same read and
parse discipline as the fetch wrapper, returning the whole parsed record. -/
def parseSession (s : Store) : Option Json :=
  match jsOr s.localStorage s.sessionStorage with
  | none => none
  | some raw =>
    if raw = "" then none
    else Json.parse raw

end ProfilePage

/-- The session's stored top-level role, written by the login flow
(`role` at the top level of the stored record, part_008 lines 83-96) and
read back through the repeated page hook pattern. -/
def storedRole (s : Store) : Option String :=
  match rawOf s with
  | none => none
  | some raw =>
    if raw = "" then none
    else
      match Json.parse raw with
      | none => none
      | some parsed => jsStringField parsed "role"

namespace AppRoot

/-- `isAuthed` from src/App.tsx lines 40-45: truthiness of either scope. -/
def isAuthed (s : Store) : Bool :=
  jsTruthy s.localStorage || jsTruthy s.sessionStorage

/-- `logout` from the application shell (part_011 lines 49-52): remove the
stored session from both scopes. -/
def logout (_s : Store) : Store :=
  { localStorage := none, sessionStorage := none }

end AppRoot

namespace UsersPage

/-- `useAuthToken` from src/pages/Users.tsx lines 38-51. -/
def useAuthToken (s : Store) : Option String :=
  match jsOr s.localStorage s.sessionStorage with
  | none => none
  | some raw =>
    if raw = "" then none
    else
      match Json.parse raw with
      | none => none
      | some parsed => jsStringField parsed "token"

/-- `useUserRole` from src/pages/Users.tsx lines 53-66: projects
`parsed?.role` with no further normalisation. -/
def useUserRole (s : Store) : Option String :=
  match jsOr s.localStorage s.sessionStorage with
  | none => none
  | some raw =>
    if raw = "" then none
    else
      match Json.parse raw with
      | none => none
      | some parsed => jsStringField parsed "role"

end UsersPage

namespace PayoutRequestsPage

/-- `useToken` from part_007 lines 251-261. -/
def useToken (s : Store) : Option String :=
  match jsOr s.localStorage s.sessionStorage with
  | none => none
  | some raw =>
    if raw = "" then none
    else
      match Json.parse raw with
      | none => none
      | some parsed => jsStringField parsed "token"

/-- `useUserRole` from part_007 lines 263-274: `(parsed?.role) || null`
additionally maps a falsy (empty) role to `null`. -/
def useUserRole (s : Store) : Option String :=
  match jsOr s.localStorage s.sessionStorage with
  | none => none
  | some raw =>
    if raw = "" then none
    else
      match Json.parse raw with
      | none => none
      | some parsed =>
        match jsStringField parsed "role" with
        | some r => if r = "" then none else some r
        | none => none

end PayoutRequestsPage

namespace AdminLayout

/-- The session read in `AdminLayout` (StatusBadge.tsx lines 79-91):
`raw ? JSON.parse(raw) : null` inside a try/catch. -/
def session (s : Store) : Option Json :=
  match jsOr s.localStorage s.sessionStorage with
  | none => none
  | some raw =>
    if raw = "" then none
    else Json.parse raw

end AdminLayout

namespace GroupsPage

/-- `useToken` from src/pages/Groups.tsx lines 53-66 (same shape as the
other token hooks). -/
def useToken (s : Store) : Option String :=
  match jsOr s.localStorage s.sessionStorage with
  | none => none
  | some raw =>
    if raw = "" then none
    else
      match Json.parse raw with
      | none => none
      | some parsed => jsStringField parsed "token"

end GroupsPage

namespace LoginPage

/-- The existing-session check in Login (part_008 lines 24-29): the raw
durable-first read whose truthiness triggers the dashboard redirect. -/
def existingSessionRaw (s : Store) : Option String :=
  jsOr s.localStorage s.sessionStorage

end LoginPage

/-- Parser sanity: the stored record written by the login flow round-trips. -/
theorem jsonParse_sessionRecord :
    Json.parse "\x7b\"token\":\"tkn\",\"role\":\"front_desk\"\x7d" =
      some (Json.obj [("token", Json.str "tkn"), ("role", Json.str "front_desk")]) := by
  rfl

/-- Parser sanity: a non-JSON value is rejected. -/
theorem jsonParse_nonJson : Json.parse "not json" = none := by
  rfl

/-- Exact substring test, modelling `String.prototype.includes`. -/
def jsIncludes (s needle : String) : Bool :=
  decide (needle.data <:+: s.data)

/-- An HTTP response as seen by the wrapper: status code and body. -/
structure Response where
  status : Nat
  body : String
deriving DecidableEq, Repr

/-- Header list with the case-insensitive `Headers.set` / `Headers.has`. -/
def setHeader (hs : List (String × String)) (name value : String) : List (String × String) :=
  (hs.filter (fun p => p.1.toLower ≠ name.toLower)) ++ [(name, value)]

/-- Case-insensitive `Headers.has`. -/
def hasHeader (hs : List (String × String)) (name : String) : Bool :=
  hs.any (fun p => p.1.toLower == name.toLower)

/-- The observable outcome of one `apiFetch` call: the storage state after
the call, the forced navigation target if any, the response value handed
back to the caller, and the headers attached to the outgoing request. -/
structure FetchOutcome where
  store : Store
  redirect : Option String
  response : Response
  requestHeaders : List (String × String)
deriving DecidableEq, Repr

namespace Api

/-- `apiFetch` from src/lib/api.ts lines 16-49, with the underlying
`fetch` response supplied as a parameter: attach the bearer token when one
resolves, default the `Accept` header, and on status 401 or 403 remove the
session from both scopes and set `window.location.href` to
"/login?expired=true" unless the current pathname already contains
"/login"; the response is returned to the caller in every case. -/
def apiFetch (s : Store) (pathname : String) (initHeaders : List (String × String))
    (resp : Response) : FetchOutcome :=
  let token := getAuthToken s
  let h1 :=
    match token with
    | some t => if t ≠ "" then setHeader initHeaders "Authorization" ("Bearer " ++ t) else initHeaders
    | none => initHeaders
  let h2 := if hasHeader h1 "Accept" then h1 else setHeader h1 "Accept" "application/json"
  if resp.status = 401 ∨ resp.status = 403 then
    { store := { localStorage := none, sessionStorage := none }
      redirect := if jsIncludes pathname "/login" then none else some "/login?expired=true"
      response := resp
      requestHeaders := h2 }
  else
    { store := s, redirect := none, response := resp, requestHeaders := h2 }

end Api

/-- The pages the router can mount, from src/App.tsx lines 60-236. -/
inductive PageId where
  | rootLogin
  | dashboard
  | users
  | userDetails
  | profile
  | settings
  | affiliates
  | groups
  | groupDetails
  | circleManagement
  | transactions
  | resources
  | blog
  | payoutRequests
  | reportGroupContributions
  | createAdmin
  | reportWithdrawals
  | reportMembersActivity
  | reportCircleProgress
  | support
  | knowledgeBase
  | notFound
deriving DecidableEq, Repr

/-- The route table of src/App.tsx: path pattern to mounted page.  The
root path mounts the login screen; a trailing catch-all mounts NotFound. -/
def routeTable : List (String × PageId) :=
  [ ("/", PageId.rootLogin)
  , ("/dashboard", PageId.dashboard)
  , ("/users", PageId.users)
  , ("/users/:id", PageId.userDetails)
  , ("/profile", PageId.profile)
  , ("/settings", PageId.settings)
  , ("/affiliates", PageId.affiliates)
  , ("/groups", PageId.groups)
  , ("/groups/:id", PageId.groupDetails)
  , ("/circle-management", PageId.circleManagement)
  , ("/transactions", PageId.transactions)
  , ("/resources", PageId.resources)
  , ("/blog", PageId.blog)
  , ("/payout-requests", PageId.payoutRequests)
  , ("/reports/group-contributions", PageId.reportGroupContributions)
  , ("/create-admin", PageId.createAdmin)
  , ("/reports/withdrawals", PageId.reportWithdrawals)
  , ("/reports/members-activity", PageId.reportMembersActivity)
  , ("/reports/circle-progress", PageId.reportCircleProgress)
  , ("/support", PageId.support)
  , ("/knowledge-base", PageId.knowledgeBase) ]

/-- Split a character list on a separator, keeping empty segments, as
`String.prototype.split` does. -/
def splitOnChar (sep : Char) : List Char → List (List Char)
  | [] => [[]]
  | c :: rest =>
    let r := splitOnChar sep rest
    if c = sep then [] :: r
    else
      match r with
      | h :: t => (c :: h) :: t
      | [] => [[c]]

/-- Segment-wise route matching: a `:name` segment matches any non-empty
segment, every other segment must match exactly. -/
def segmentsMatch : List (List Char) → List (List Char) → Bool
  | [], [] => true
  | p :: ps, x :: xs =>
    (match p with
     | ':' :: _ => !x.isEmpty
     | _ => p == x) && segmentsMatch ps xs
  | _, _ => false

/-- Match a route pattern against a pathname. -/
def matchesPattern (pat path : String) : Bool :=
  segmentsMatch (splitOnChar '/' pat.data) (splitOnChar '/' path.data)

/-- Resolve a pathname to the page the router mounts; unmatched paths hit
the catch-all NotFound route. -/
def resolveRoute (path : String) : PageId :=
  match routeTable.find? (fun p => matchesPattern p.1 path) with
  | some p => p.2
  | none => PageId.notFound

/-- The path component of a URL, before any query string. -/
def jsPathOf (url : String) : String :=
  match splitOnChar '?' url.data with
  | p :: _ => String.mk p
  | [] => url

/-- Side effects a row-action handler can perform. -/
inductive Effect where
  | navigate (url : String)
  | consoleLog (msg : String)
deriving DecidableEq, Repr

/-- A table column: key into the record and header label (the optional
custom renderer is view glue and not inspected by any claim). -/
structure Column where
  key : String
  label : String
deriving DecidableEq, Repr

namespace UsersPage

/-- `hasFullAccess` from src/pages/Users.tsx line 85. -/
def hasFullAccess (role : Option String) : Bool :=
  role == some "admin" || role == some "account"

/-- `hasLimitedView` from src/pages/Users.tsx line 86: the comparison is
against the camelCase literal "frontDesk". -/
def hasLimitedView (role : Option String) : Bool :=
  role == some "frontDesk"

/-- `hasReadOnly` from src/pages/Users.tsx line 87. -/
def hasReadOnly (role : Option String) : Bool :=
  role == some "customerSupport"

/-- `canViewDetails` from src/pages/Users.tsx line 88. -/
def canViewDetails (role : Option String) : Bool :=
  hasFullAccess role || hasLimitedView role || hasReadOnly role

/-- `canSuspendUsers` from src/pages/Users.tsx line 89. -/
def canSuspendUsers (role : Option String) : Bool :=
  hasFullAccess role

/-- The role-dependent column list of src/pages/Users.tsx lines 189-285. -/
def columns (role : Option String) : List Column :=
  let baseColumns : List Column := [{ key := "name", label := "Name" }]
  if hasLimitedView role then
    baseColumns ++
      [ { key := "email", label := "Email" }
      , { key := "accountStatus", label := "Status" } ]
  else if hasReadOnly role then
    baseColumns ++
      [ { key := "email", label := "Email" }
      , { key := "userType", label := "Type" }
      , { key := "accountStatus", label := "Status" } ]
  else
    baseColumns ++
      [ { key := "email", label := "Email" }
      , { key := "userType", label := "Type" }
      , { key := "accountStatus", label := "Status" }
      , { key := "isVerified", label := "Verified" }
      , { key := "createdAt", label := "Joined" } ]

/-- The role-dependent action list of src/pages/Users.tsx lines 293-313
(labels; "View Details" navigates, "Suspend" logs). -/
def actionItems (role : Option String) : List String :=
  (if canViewDetails role then ["View Details"] else []) ++
    (if canSuspendUsers role then ["Suspend"] else [])

/-- The limited/read-only banner of src/pages/Users.tsx lines 351-356. -/
def bannerText (role : Option String) : Option String :=
  if hasLimitedView role then
    some "Limited view mode - Some columns and actions are restricted."
  else if hasReadOnly role then
    some "Read-only mode - You can view user information but cannot make changes."
  else none

/-- What the Users page renders for a given resolved role. -/
inductive UsersView where
  | accessDenied
  | table (banner : Option String) (cols : List Column) (actions : List String)
deriving DecidableEq, Repr

/-- The render branch of src/pages/Users.tsx lines 320-373: the
permission-denied panel when the role is falsy or `canViewDetails` fails,
otherwise the data table with role-filtered columns and actions and the
role-limited banner when one applies. -/
def renderUsersPage (role : Option String) : UsersView :=
  if !(jsTruthy role) || !(canViewDetails role) then UsersView.accessDenied
  else UsersView.table (bannerText role) (columns role) (actionItems role)

end UsersPage

namespace AppSidebar

/-- A sidebar navigation item with its role allow-list. -/
structure NavItem where
  title : String
  url : String
  roles : List String
deriving DecidableEq, Repr

/-- The hard-coded role of src/components/admin/AppSidebar.tsx line 23;
the component never reads the session. -/
def currentUserRole : String := "Admin"

/-- `mainItems` from AppSidebar.tsx lines 25-35. -/
def mainItems : List NavItem :=
  [ { title := "Dashboard", url := "/dashboard"
    , roles := ["Admin", "Account", "Front Desk", "Customer Support", "Marketing"] }
  , { title := "Users", url := "/users"
    , roles := ["Admin", "Account", "Front Desk", "Customer Support"] }
  , { title := "Groups", url := "/groups"
    , roles := ["Admin", "Account", "Front Desk", "Customer Support"] }
  , { title := "Affiliates", url := "/affiliates", roles := ["Admin", "Account"] }
  , { title := "Transactions", url := "/transactions"
    , roles := ["Admin", "Account", "Customer Support"] }
  , { title := "Payout Requests", url := "/payout-requests"
    , roles := ["Admin", "Account", "Customer Support"] }
  , { title := "Resources", url := "/resources"
    , roles := ["Admin", "Account", "Front Desk", "Customer Support", "Marketing"] }
  , { title := "Blog", url := "/blog", roles := ["Admin", "Account", "Marketing"] }
  , { title := "Create Admin", url := "/create-admin", roles := ["Admin"] } ]

/-- `filteredMainItems` from AppSidebar.tsx line 82: filter by the
hard-coded `currentUserRole`. -/
def filteredMainItems : List NavItem :=
  mainItems.filter (fun item => item.roles.contains currentUserRole)

/-- What the sidebar renders for a given session: the component takes no
session input (AppSidebar.tsx line 23), so the rendered main item set is
`filteredMainItems` for every store. -/
def renderedMainItems (_s : Store) : List NavItem :=
  filteredMainItems

/-- Modelled from the spec: the navigation items whose role allow-list
contains the given role — what the claim says the sidebar should render
for a session with that role. -/
def allowedMainItems (role : String) : List NavItem :=
  mainItems.filter (fun item => item.roles.contains role)

end AppSidebar

/-- An entry of the rendered page-number strip: a page button or the
literal "..." separator. -/
inductive PageEntry where
  | page (n : Nat)
  | ellipsis
deriving DecidableEq, Repr

namespace DataTable

/-- `getPageNumbers` from the generic DataTable (part_009 lines 96-130):
all pages when `totalPages <= 7`, otherwise page 1, a conditional leading
ellipsis, the window `[max(2, currentPage-1), min(totalPages-1,
currentPage+1)]`, a conditional trailing ellipsis, and the last page.
The `for` loop over `[start, end]` is rendered as `List.range' start
(end + 1 - start)`, which is empty exactly when the loop body never runs. -/
def getPageNumbers (currentPage totalPages : Nat) : List PageEntry :=
  if totalPages ≤ 7 then
    (List.range' 1 totalPages).map PageEntry.page
  else
    let start := max 2 (currentPage - 1)
    let stop := min (totalPages - 1) (currentPage + 1)
    [PageEntry.page 1]
      ++ (if 3 < currentPage then [PageEntry.ellipsis] else [])
      ++ (List.range' start (stop + 1 - start)).map PageEntry.page
      ++ (if currentPage < totalPages - 2 then [PageEntry.ellipsis] else [])
      ++ [PageEntry.page totalPages]

/-- Modelled from the spec (section 4.3, pagination algorithm): if
`totalPages <= 7` render all page numbers; else always render page 1,
an ellipsis iff `currentPage > 3`, the pages in `[max(2, currentPage-1),
min(totalPages-1, currentPage+1)]`, an ellipsis iff
`currentPage < totalPages-2`, and always the last page. -/
def specPageNumbers (currentPage totalPages : Nat) : List PageEntry :=
  if totalPages ≤ 7 then
    (List.range' 1 totalPages).map PageEntry.page
  else
    [PageEntry.page 1]
      ++ (if currentPage > 3 then [PageEntry.ellipsis] else [])
      ++ ((List.range' (max 2 (currentPage - 1))
            (min (totalPages - 1) (currentPage + 1) + 1 - max 2 (currentPage - 1))).map
            PageEntry.page)
      ++ (if currentPage < totalPages - 2 then [PageEntry.ellipsis] else [])
      ++ [PageEntry.page totalPages]

/-- A per-row action menu entry: label and click handler. -/
structure ActionItem where
  label : String
  onClick : Json → List Effect

/-- The default action list of the DataTable (part_009 lines 45-48):
"Edit" and "Delete" with no-op handlers. -/
def defaultActionItems : List ActionItem :=
  [ { label := "Edit", onClick := fun _ => [] }
  , { label := "Delete", onClick := fun _ => [] } ]

/-- The DataTable props relevant to action rendering, with the optional
fields kept optional as in the component signature (part_009 lines 26-57). -/
structure Props where
  columns : List Column
  data : List Json
  showActions : Option Bool
  actionItems : Option (List ActionItem)

/-- Default resolution `showActions = true` (part_009 line 44). -/
def resolvedShowActions (p : Props) : Bool :=
  p.showActions.getD true

/-- Default resolution of `actionItems` (part_009 lines 45-48). -/
def resolvedActionItems (p : Props) : List ActionItem :=
  p.actionItems.getD defaultActionItems

/-- The action menu rendered for one data row (part_009 lines 187-207):
when `showActions` holds, the resolved `actionItems` are mapped one-to-one
to menu entries; no further filtering is applied. -/
def renderedMenu (p : Props) (_row : Json) : List ActionItem :=
  if resolvedShowActions p then resolvedActionItems p else []

end DataTable

/-- The debounce timer discipline of src/pages/Groups.tsx lines 91-97:
each keystroke clears the pending timeout and schedules a new one
`window` ms later; a pending timer fires only if its deadline arrives
before the next keystroke.  Input: keystrokes as (time, query) in time
order, plus the currently pending timer; output: the fired (time, query)
events in order. -/
def debounceSim (window : Nat) : List (Nat × String) → Option (Nat × String) → List (Nat × String)
  | [], pending =>
    match pending with
    | some p => [p]
    | none => []
  | (t, q) :: rest, pending =>
    match pending with
    | some p =>
      if p.1 ≤ t then p :: debounceSim window rest (some (t + window, q))
      else debounceSim window rest (some (t + window, q))
    | none => debounceSim window rest (some (t + window, q))

/-- The searches fired for a keystroke sequence with no timer pending
initially. -/
def debounceFires (window : Nat) (keys : List (Nat × String)) : List (Nat × String) :=
  debounceSim window keys none

namespace GroupsPage

/-- The groups collection URL built by the fetch effect of
src/pages/Groups.tsx lines 113-127 (page always; `search` only when the
debounced query is truthy; status/date filters at their defaults omitted). -/
def requestUrl (page : Nat) (debouncedSearch : String) : String :=
  "https://api.joinonemai.com/api/admin/groups?page=" ++ toString page ++
    (if debouncedSearch = "" then "" else "&search=" ++ debouncedSearch)

/-- The search requests issued for a keystroke sequence: one request per
debounce fire, carrying the fired query (the page is reset to 1 when the
debounced search changes, Groups.tsx lines 99-102). -/
def searchRequests (keys : List (Nat × String)) : List (Nat × String) :=
  (debounceFires 500 keys).map (fun p => (p.1, requestUrl 1 p.2))

end GroupsPage

/-- A session record as stored by the login flow with role "front_desk",
the spelling used by the spec and by every page other than Users.tsx. -/
def storeFrontDesk : Store :=
  { localStorage := some "\x7b\"token\":\"tkn\",\"role\":\"front_desk\"\x7d"
  , sessionStorage := none }

/-- A session record whose stored role is "Marketing". -/
def storeMarketing : Store :=
  { localStorage := some "\x7b\"token\":\"tkn\",\"role\":\"Marketing\"\x7d"
  , sessionStorage := none }

/-- A session record whose stored role is "Admin". -/
def storeAdminSession : Store :=
  { localStorage := some "\x7b\"token\":\"tkn\",\"role\":\"Admin\"\x7d"
  , sessionStorage := none }

/-- A storage state holding a value that is not valid JSON. -/
def storeBadJson : Store :=
  { localStorage := some "not json", sessionStorage := none }

/-- A 403 response as received by the authenticated fetch wrapper. -/
def respForbidden : Response :=
  { status := 403, body := "\x7b\"message\":\"Forbidden\"\x7d" }

/-- Claim C1: for a session whose stored role is "front_desk" the Users
page is claimed to render the limited table with a banner; in the code the
role gates compare against the camelCase literal "frontDesk", so the
stored role "front_desk" fails `canViewDetails` and the page renders the
permission-denied panel with no table and no banner.  The claimed view is
produced only for the literal "frontDesk". -/
theorem c1_users_front_desk_denied :
    UsersPage.useUserRole storeFrontDesk = some "front_desk" ∧
    UsersPage.renderUsersPage (UsersPage.useUserRole storeFrontDesk) =
      UsersPage.UsersView.accessDenied ∧
    UsersPage.renderUsersPage (some "frontDesk") =
      UsersPage.UsersView.table
        (some "Limited view mode - Some columns and actions are restricted.")
        [ { key := "name", label := "Name" }
        , { key := "email", label := "Email" }
        , { key := "accountStatus", label := "Status" } ]
        ["View Details"] := by
  decide

/-- Claim C2: the sidebar is claimed to render exactly the items whose
allow-list contains the session's role; in the code the filter uses the
hard-coded constant role "Admin" (AppSidebar.tsx line 23) and never reads
the session, so sessions with roles "Marketing" and "Admin" — whose
allow-lists differ — see the identical item set, and the set rendered for
the Marketing session is not the Marketing allow-list filter. -/
theorem c2_sidebar_ignores_session_role :
    (∀ s : Store, AppSidebar.renderedMainItems s = AppSidebar.filteredMainItems) ∧
    storedRole storeMarketing = some "Marketing" ∧
    storedRole storeAdminSession = some "Admin" ∧
    AppSidebar.renderedMainItems storeMarketing =
      AppSidebar.renderedMainItems storeAdminSession ∧
    AppSidebar.allowedMainItems "Marketing" ≠ AppSidebar.allowedMainItems "Admin" ∧
    AppSidebar.renderedMainItems storeMarketing ≠ AppSidebar.allowedMainItems "Marketing" ∧
    (AppSidebar.allowedMainItems "Marketing").map (fun i => i.title) =
      ["Dashboard", "Resources", "Blog"] := by
  exact ⟨fun _ => rfl, by decide, by decide, rfl, by decide, by decide, by decide⟩

/-- Claim C3: for every pair with `1 ≤ currentPage ≤ totalPages` the
page-number renderer agrees with the spec's algorithm: all pages and no
ellipsis when `totalPages ≤ 7`, otherwise page 1, an ellipsis iff
`currentPage > 3`, the window around the current page, an ellipsis iff
`currentPage < totalPages - 2`, and the last page. -/
theorem c3_pageNumbers_match_spec (cp tp : Nat) (h1 : 1 ≤ cp) (h2 : cp ≤ tp) :
    DataTable.getPageNumbers cp tp = DataTable.specPageNumbers cp tp ∧
    (tp ≤ 7 → DataTable.getPageNumbers cp tp = (List.range' 1 tp).map PageEntry.page ∧
      PageEntry.ellipsis ∉ DataTable.getPageNumbers cp tp) := by
  constructor
  · rfl
  · intro h
    constructor
    · simp [DataTable.getPageNumbers, h]
    · simp [DataTable.getPageNumbers, h, List.mem_map]

/-- Witness for C3 at the claim's instance `(currentPage, totalPages) =
(10, 20)`, which renders `[1, "...", 9, 10, 11, "...", 20]`. -/
theorem c3_pageNumbers_witness :
    (1 : Nat) ≤ 10 ∧ (10 : Nat) ≤ 20 ∧
    DataTable.getPageNumbers 10 20 = DataTable.specPageNumbers 10 20 ∧
    DataTable.getPageNumbers 10 20 =
      [ PageEntry.page 1, PageEntry.ellipsis, PageEntry.page 9, PageEntry.page 10
      , PageEntry.page 11, PageEntry.ellipsis, PageEntry.page 20 ] :=
  ⟨by decide, by decide,
    (c3_pageNumbers_match_spec 10 20 (by decide) (by decide)).1, by decide⟩

/-- Claim C4 counterexample: for `totalPages = 20, currentPage = 1` the
renderer does not produce `[1, 2, 3, "...", 20]` — the window
`[max(2, 0), min(19, 2)] = [2, 2]` contributes only page 2. -/
theorem c4_counterexample :
    DataTable.getPageNumbers 1 20 ≠
      [ PageEntry.page 1, PageEntry.page 2, PageEntry.page 3
      , PageEntry.ellipsis, PageEntry.page 20 ] := by
  decide

/-- Claim C4 as amended: for `totalPages = 20, currentPage = 1` the
renderer produces `[1, 2, "...", 20]`, with no leading ellipsis. -/
theorem c4_amended_page1_of_20 :
    DataTable.getPageNumbers 1 20 =
      [PageEntry.page 1, PageEntry.page 2, PageEntry.ellipsis, PageEntry.page 20] ∧
    (DataTable.getPageNumbers 1 20).head? = some (PageEntry.page 1) := by
  decide

/-- Claim C5: on a 403 the wrapper clears both storage scopes and returns
the response unchanged as claimed, but the forced navigation target
"/login?expired=true" is a path the application's router does not map to
the login screen: the login entry point is the root route "/", and
"/login" falls through to the catch-all NotFound route. -/
theorem c5_forbidden_clears_but_misroutes :
    (Api.apiFetch storeAdminSession "/users" [] respForbidden).store =
      { localStorage := none, sessionStorage := none } ∧
    (Api.apiFetch storeAdminSession "/users" [] respForbidden).redirect =
      some "/login?expired=true" ∧
    (Api.apiFetch storeAdminSession "/users" [] respForbidden).response = respForbidden ∧
    resolveRoute (jsPathOf "/login?expired=true") = PageId.notFound ∧
    resolveRoute "/" = PageId.rootLogin ∧
    PageId.notFound ≠ PageId.rootLogin := by
  decide

/-- Claim C6: session resolution is a total function of the two storage
scopes (the embedding has no other inputs and no network effect): it
returns `none` whenever no non-empty value is stored in either scope, and
`none` whenever the selected raw value fails to parse as JSON, for both
the token reader of the fetch wrapper and the record reader of the
Profile page. -/
theorem c6_session_resolution_fails_closed (s : Store) :
    (jsTruthy (rawOf s) = false →
      Api.getAuthToken s = none ∧ ProfilePage.parseSession s = none) ∧
    (∀ r, rawOf s = some r → r ≠ "" → Json.parse r = none →
      Api.getAuthToken s = none ∧ ProfilePage.parseSession s = none) := by
  cases h : jsOr s.localStorage s.sessionStorage with
  | none =>
    refine ⟨fun _ => ?_, fun r hr => ?_⟩
    · simp [Api.getAuthToken, ProfilePage.parseSession, h]
    · rw [rawOf] at hr
      simp [h] at hr
  | some r =>
    by_cases hr : r = ""
    · subst hr
      refine ⟨fun _ => ?_, fun r2 hr2 hne _ => ?_⟩
      · simp [Api.getAuthToken, ProfilePage.parseSession, h]
      · rw [rawOf] at hr2
        rw [h] at hr2
        injection hr2 with h2
        exact absurd h2.symm hne
    · refine ⟨fun hfalse => ?_, fun r2 hr2 _ hparse => ?_⟩
      · rw [rawOf, h] at hfalse
        simp [jsTruthy, hr] at hfalse
      · rw [rawOf, h] at hr2
        injection hr2 with h2
        subst h2
        simp [Api.getAuthToken, ProfilePage.parseSession, h, hr, hparse]

/-- Witness for C6: a stored value that is not JSON resolves to `none` in
both readers. -/
theorem c6_witness :
    rawOf storeBadJson = some "not json" ∧
    Json.parse "not json" = none ∧
    Api.getAuthToken storeBadJson = none ∧
    ProfilePage.parseSession storeBadJson = none :=
  ⟨rfl, rfl,
    ((c6_session_resolution_fails_closed storeBadJson).2 "not json" rfl (by decide) rfl).1,
    ((c6_session_resolution_fails_closed storeBadJson).2 "not json" rfl (by decide) rfl).2⟩

/-- Claim C7: `logout` removes the stored session from both scopes, is
idempotent, and immediately afterwards every resolution path — raw read,
token, parsed record, role, authentication check — yields `none`/false. -/
theorem c7_destroySession_complete (s : Store) :
    AppRoot.logout (AppRoot.logout s) = AppRoot.logout s ∧
    (AppRoot.logout s).localStorage = none ∧
    (AppRoot.logout s).sessionStorage = none ∧
    rawOf (AppRoot.logout s) = none ∧
    Api.getAuthToken (AppRoot.logout s) = none ∧
    ProfilePage.parseSession (AppRoot.logout s) = none ∧
    storedRole (AppRoot.logout s) = none ∧
    UsersPage.useUserRole (AppRoot.logout s) = none ∧
    AppRoot.isAuthed (AppRoot.logout s) = false :=
  ⟨rfl, rfl, rfl, rfl, rfl, rfl, rfl, rfl, rfl⟩

/-- Claim C8: every session-read site applies durable-first precedence:
whenever the durable scope holds a non-empty value, each site resolves
exactly as it would with the session-lifetime scope empty — the durable
copy is the one resolved, across the fetch wrapper and every page hook. -/
theorem c8_durable_precedence (s : Store) (v : String)
    (hd : s.localStorage = some v) (hv : v ≠ "") :
    rawOf s = some v ∧
    Api.getAuthToken s = Api.getAuthToken { localStorage := some v, sessionStorage := none } ∧
    UsersPage.useAuthToken s =
      UsersPage.useAuthToken { localStorage := some v, sessionStorage := none } ∧
    UsersPage.useUserRole s =
      UsersPage.useUserRole { localStorage := some v, sessionStorage := none } ∧
    PayoutRequestsPage.useToken s =
      PayoutRequestsPage.useToken { localStorage := some v, sessionStorage := none } ∧
    PayoutRequestsPage.useUserRole s =
      PayoutRequestsPage.useUserRole { localStorage := some v, sessionStorage := none } ∧
    ProfilePage.parseSession s =
      ProfilePage.parseSession { localStorage := some v, sessionStorage := none } ∧
    AdminLayout.session s =
      AdminLayout.session { localStorage := some v, sessionStorage := none } ∧
    GroupsPage.useToken s =
      GroupsPage.useToken { localStorage := some v, sessionStorage := none } ∧
    LoginPage.existingSessionRaw s = some v ∧
    storedRole s = storedRole { localStorage := some v, sessionStorage := none } ∧
    AppRoot.isAuthed s = true := by
  have hraw : jsOr s.localStorage s.sessionStorage = some v := by
    rw [hd]
    simp [jsOr, hv]
  refine ⟨?_, ?_, ?_, ?_, ?_, ?_, ?_, ?_, ?_, ?_, ?_, ?_⟩
  · simpa [rawOf] using hraw
  · simp [Api.getAuthToken, jsOr, hd, hv]
  · simp [UsersPage.useAuthToken, jsOr, hd, hv]
  · simp [UsersPage.useUserRole, jsOr, hd, hv]
  · simp [PayoutRequestsPage.useToken, jsOr, hd, hv]
  · simp [PayoutRequestsPage.useUserRole, jsOr, hd, hv]
  · simp [ProfilePage.parseSession, jsOr, hd, hv]
  · simp [AdminLayout.session, jsOr, hd, hv]
  · simp [GroupsPage.useToken, jsOr, hd, hv]
  · simpa [LoginPage.existingSessionRaw] using hraw
  · simp [storedRole, rawOf, jsOr, hd, hv]
  · simp [AppRoot.isAuthed, hd, jsTruthy, hv]

/-- Witness for C8 with a distinct record in each scope: the durable
value "A" is the one resolved everywhere. -/
theorem c8_witness :
    (Store.mk (some "A") (some "B")).localStorage = some "A" ∧
    "A" ≠ "" ∧
    rawOf (Store.mk (some "A") (some "B")) = some "A" ∧
    AppRoot.isAuthed (Store.mk (some "A") (some "B")) = true :=
  ⟨rfl, by decide,
    (c8_durable_precedence (Store.mk (some "A") (some "B")) "A" rfl (by decide)).1,
    (c8_durable_precedence (Store.mk (some "A") (some "B")) "A" rfl (by decide)).2.2.2.2.2.2.2.2.2.2.2⟩

/-- Claim C9: with the 500 ms debounce of the Groups page, keystrokes at
t = 0, 100 and 200 ms produce exactly one search request, fired at
t = 700 ms and carrying the final query string; no request is issued for
the intermediate queries. -/
theorem c9_debounce_single_request :
    debounceFires 500 [(0, "a"), (100, "ab"), (200, "abc")] = [(700, "abc")] ∧
    GroupsPage.searchRequests [(0, "a"), (100, "ab"), (200, "abc")] =
      [(700, "https://api.joinonemai.com/api/admin/groups?page=1&search=abc")] ∧
    (GroupsPage.searchRequests [(0, "a"), (100, "ab"), (200, "abc")]).length = 1 := by
  decide

/-- The DataTable props with `showActions` and `actionItems` omitted. -/
def defaultedProps (cols : List Column) (data : List Json) : DataTable.Props :=
  { columns := cols, data := data, showActions := none, actionItems := none }

/-- Claim C10: when the caller omits `actionItems` and `showActions`,
every data row's action menu contains exactly the entries "Edit" and
"Delete", whose click handlers perform no effect; the default set is
non-empty and no capability predicate filters it (the menu is the same
for every row and every caller). -/
theorem c10_default_action_menu (cols : List Column) (data : List Json) (row : Json) :
    DataTable.resolvedShowActions (defaultedProps cols data) = true ∧
    (DataTable.renderedMenu (defaultedProps cols data) row).map (fun i => i.label) =
      ["Edit", "Delete"] ∧
    (DataTable.renderedMenu (defaultedProps cols data) row).map (fun i => i.onClick row) =
      [[], []] :=
  ⟨rfl, rfl, rfl⟩
